import Mathlib

/-!
Verification development for `src/markdown_server.py`, a single-file HTTP
server that renders Markdown files to styled HTML pages.

Python strings are modelled as `List Char`.  The third-party collaborators
(`urllib.parse.unquote`, the `markdown` converter, the file system, and the
serve loop's outcome) are modelled as explicit function parameters, so every
theorem quantifies over them; the repository's own logic is embedded
definition by definition below.
-/

/-- Splits `s` at the first occurrence of `pat`: returns `some (pre, post)`
with `s = pre ++ pat ++ post` and `pre` shortest, or `none` when `pat` does
not occur in `s`.  This is the primitive behind both the regex scan of
`process_mermaid_blocks` (a match of `r'```mermaid\n(.*?)\n```'` starts at the
first occurrence of the opening literal and its lazy group ends at the first
occurrence of the closing literal) and Python's `in` substring test. -/
def splitFirst (pat : List Char) : List Char → Option (List Char × List Char)
  | [] => if pat = [] then some ([], []) else none
  | c :: cs =>
    if pat.isPrefixOf (c :: cs) then some ([], (c :: cs).drop pat.length)
    else
      match splitFirst pat cs with
      | some (pre, post) => some (c :: pre, post)
      | none => none

/-- Python's substring test `pat in s`. -/
def hasSub (pat s : List Char) : Bool := (splitFirst pat s).isSome

/-- Opening literal of the diagram-fence regex: `` ```mermaid `` plus newline. -/
def mermaidOpen : List Char := "```mermaid\n".data

/-- Closing literal of the diagram-fence regex: newline plus `` ``` ``. -/
def mermaidClose : List Char := "\n```".data

/-- Opening part of the replacement `'<div class="mermaid">\n{code}\n</div>'`. -/
def mermaidDivOpen : List Char := "<div class=\"mermaid\">\n".data

/-- Closing part of the replacement. -/
def mermaidDivClose : List Char := "\n</div>".data

/-- Fuel-indexed scan of `re.sub(r'```mermaid\n(.*?)\n```', repl, content,
flags=re.DOTALL)`: find the first opening literal, then the earliest closing
literal after it (lazy group), replace the whole match, continue after it;
when the opening literal never occurs, or occurs with no closing literal
after it, there is no match anywhere and the input passes through unchanged.
The fuel only bounds the recursion; `process_mermaid_blocks` supplies enough
fuel that it is never exhausted. -/
def processMermaidAux : Nat → List Char → List Char
  | 0, s => s
  | fuel + 1, s =>
    match splitFirst mermaidOpen s with
    | none => s
    | some (pre, rest) =>
      match splitFirst mermaidClose rest with
      | none => s
      | some (code, rest2) =>
        pre ++ mermaidDivOpen ++ code ++ mermaidDivClose ++ processMermaidAux fuel rest2

/-- Embedding of `MarkdownHandler.process_mermaid_blocks` (lines 72-84). -/
def process_mermaid_blocks (s : List Char) : List Char :=
  processMermaidAux (s.length + 1) s

/-- Embedding of lines 21-22: `if '?' in path: path = path.split('?')[0]`. -/
def stripQuery (p : List Char) : List Char :=
  if p.contains '?' then p.takeWhile (fun c => c != '?') else p

/-- The fixed default document the root path is rewritten to (line 26). -/
def rootDefaultDoc : List Char := "/IMPLEMENTATION_GUIDE.md".data

/-- Embedding of lines 25-26: `if path == '/': path = '/IMPLEMENTATION_GUIDE.md'`. -/
def rootSubst (p : List Char) : List Char :=
  if p = "/".data then rootDefaultDoc else p

/-- Embedding of lines 29-30: `if path.startswith('/'): path = path[1:]`. -/
def stripLeadingSlash (p : List Char) : List Char :=
  if "/".data.isPrefixOf p then p.drop 1 else p

/-- The path normalization of `do_GET` (lines 18-30).  `unq` stands for the
third-party `urllib.parse.unquote` and is an arbitrary function parameter. -/
def resolvePath (unq : List Char → List Char) (raw : List Char) : List Char :=
  stripLeadingSlash (rootSubst (stripQuery (unq raw)))

/-- The Markdown extension tested by `path.endswith('.md')` (line 33). -/
def mdExt : List Char := ".md".data

/-- Outcome of `open(path, 'r', encoding='utf-8')` followed by `f.read()`:
success with decoded text, `FileNotFoundError`, or any other `Exception`
carrying `str(e)`. -/
inductive ReadResult where
  | ok (content : List Char)
  | notFound
  | ioError (msg : List Char)

/-- The observable response of the Markdown branch of `do_GET`: the status
code, the two headers the code sets explicitly on success, and the body text
(for `send_error` calls, the message string handed to the library). -/
structure MdResponse where
  status : Nat
  contentType : Option (List Char)
  contentLength : Option Nat
  body : List Char
deriving DecidableEq

/-- UTF-8 encoding of one character (what Python's `str.encode('utf-8')`
produces per code point). -/
def utf8Bytes (c : Char) : List Nat :=
  let n := c.toNat
  if n < 128 then [n]
  else if n < 2048 then [192 + n / 64, 128 + n % 64]
  else if n < 65536 then [224 + n / 4096, 128 + (n / 64) % 64, 128 + n % 64]
  else [240 + n / 262144, 128 + (n / 4096) % 64, 128 + (n / 64) % 64, 128 + n % 64]

/-- Embedding of `full_html.encode('utf-8')`. -/
def encodeUtf8 (s : List Char) : List Nat := s.flatMap utf8Bytes

/-- Message text of line 65: `f"File not found: {path}"` minus the path. -/
def errNotFoundText : List Char := "File not found: ".data

/-- Message text of line 67: `f"Error processing markdown: {str(e)}"` minus
the error description. -/
def errProcessText : List Char := "Error processing markdown: ".data

def tplA : String := "<!DOCTYPE html>\n<html lang=\"en\">\n<head>\n    <meta charset=\"UTF-8\">\n    <meta name=\"viewport\" content=\"width=device-width, initial-scale=1.0\">\n    <title>"

def tplB : String := "</title>\n    <script src=\"https://cdn.jsdelivr.net/npm/mermaid@10.6.1/dist/mermaid.min.js\"></script>\n    <style>\n        /* GitHub-like styling */\n        body \x7b\n            font-family: -apple-system, BlinkMacSystemFont, \x27Segoe UI\x27, \x27Noto Sans\x27, Helvetica, Arial, sans-serif;\n            font-size: 16px;\n            line-height: 1.5;\n            color: #24292f;\n            background-color: #ffffff;\n            max-width: 1200px;\n            margin: 0 auto;\n            padding: 20px;\n        \x7d\n        \n        h1, h2, h3, h4, h5, h6 \x7b\n            margin-top: 24px;\n            margin-bottom: 16px;\n            font-weight: 600;\n            line-height: 1.25;\n        \x7d\n        \n        h1 \x7b\n            font-size: 2em;\n            padding-bottom: 0.3em;\n            border-bottom: 1px solid #d0d7deff;\n        \x7d\n        \n        h2 \x7b\n            font-size: 1.5em;\n            padding-bottom: 0.3em;\n            border-bottom: 1px solid #d0d7deff;\n        \x7d\n        \n        h3 \x7b\n            font-size: 1.25em;\n        \x7d\n        \n        code \x7b\n            padding: 0.2em 0.4em;\n            margin: 0;\n            font-size: 85%;\n            background-color: rgba(175, 184, 193, 0.2);\n            border-radius: 6px;\n            font-family: ui-monospace, SFMono-Regular, \x27SF Mono\x27, Consolas, \x27Liberation Mono\x27, Menlo, monospace;\n        \x7d\n        \n        pre \x7b\n            padding: 16px;\n            overflow: auto;\n            font-size: 85%;\n            line-height: 1.45;\n            background-color: #f6f8fa;\n            border-radius: 6px;\n            border: 1px solid #d0d7de;\n        \x7d\n        \n        pre code \x7b\n            background-color: transparent;\n            border: 0;\n            display: inline;\n            line-height: inherit;\n            margin: 0;\n            overflow: visible;\n            padding: 0;\n            word-wrap: normal;\n        \x7d\n        \n        table \x7b\n            border-spacing: 0;\n            border-collapse: collapse;\n            width: 100%;\n            margin-bottom: 16px;\n        \x7d\n        \n        table th, table td \x7b\n            padding: 6px 13px;\n            border: 1px solid #d0d7de;\n        \x7d\n        \n        table th \x7b\n            background-color: #f6f8fa;\n            font-weight: 600;\n        \x7d\n        \n        table tr:nth-child(2n) \x7b\n            background-color: #f6f8fa;\n        \x7d\n        \n        blockquote \x7b\n            padding: 0 1em;\n            color: #656d76;\n            border-left: 0.25em solid #d0d7de;\n            margin: 0 0 16px 0;\n        \x7d\n        \n        ul, ol \x7b\n            padding-left: 2em;\n            margin-bottom: 16px;\n        \x7d\n        \n        li \x7b\n            margin: 0.25em 0;\n        \x7d\n        \n        hr \x7b\n            height: 0.25em;\n            padding: 0;\n            margin: 24px 0;\n            background-color: #d0d7de;\n            border: 0;\n        \x7d\n        \n        .highlight \x7b\n            background: #f8f8f8;\n            border: 1px solid #ccc;\n            border-radius: 4px;\n            padding: 10px;\n            overflow-x: auto;\n        \x7d\n        \n        /* Success indicators */\n        body \x7b\n            counter-reset: checkmark;\n        \x7d\n        \n        p:has(‚úÖ)::before \x7b\n            content: \"‚úÖ \";\n            color: #28a745;\n        \x7d\n        \n        /* Navigation */\n        .nav \x7b\n            background: #f6f8fa;\n            padding: 10px 20px;\n            margin: -20px -20px 20px -20px;\n            border-bottom: 1px solid #d0d7de;\n            position: sticky;\n            top: 0;\n            z-index: 100;\n        \x7d\n        \n        .nav h1 \x7b\n            margin: 0;\n            font-size: 1.2em;\n            border: none;\n            padding: 0;\n        \x7d\n        \n        /* Responsive */\n        @media (max-width: 768px) \x7b\n            body \x7b\n                padding: 10px;\n            \x7d\n            .nav \x7b\n                margin: -10px -10px 10px -10px;\n            \x7d\n        \x7d\n    </style>\n    <link rel=\"stylesheet\" href=\"https://cdnjs.cloudflare.com/ajax/libs/highlight.js/11.9.0/styles/github.min.css\">\n    <script src=\"https://cdnjs.cloudflare.com/ajax/libs/highlight.js/11.9.0/highlight.min.js\"></script>\n    <script>hljs.highlightAll();</script>\n</head>\n<body>\n    <div class=\"nav\">\n        <h1>üìö GitOps Implementation Documentation</h1>\n        <p style=\"margin: 5px 0 0 0; color: #656d76; font-size: 14px;\">\n            üöÄ Complete implementation guide with ArgoCD and Kustomize | \n            <a href=\"/\">Implementation Doc</a> | \n            <a href=\"/README.md\">Project README</a>\n        </p>\n    </div>\n    "

def tplC : String := "\n    <footer style=\"margin-top: 40px; padding-top: 20px; border-top: 1px solid #d0d7de; text-align: center; color: #656d76;\">\n        <p>üìñ Served by Python Markdown Server | üéØ GitOps Implementation Complete</p>\n    </footer>\n    <script>\n        // Initialize Mermaid\n        mermaid.initialize(\x7b \n            startOnLoad: true,\n            theme: \x27base\x27,\n            themeVariables: \x7b\n                primaryColor: \x27#0969da\x27,\n                primaryTextColor: \x27#24292f\x27,\n                primaryBorderColor: \x27#1f2328\x27,\n                lineColor: \x27#656d76\x27,\n                secondaryColor: \x27#f6f8fa\x27,\n                tertiaryColor: \x27#ffffff\x27,\n                background: \x27#ffffff\x27,\n                mainBkg: \x27#f6f8fa\x27,\n                secondBkg: \x27#ffffff\x27,\n                tertiaryTextColor: \x27#24292f\x27\n            \x7d,\n            flowchart: \x7b\n                useMaxWidth: true,\n                htmlLabels: true,\n                curve: \x27basis\x27\n            \x7d,\n            sequence: \x7b\n                diagramMarginX: 50,\n                diagramMarginY: 10,\n                actorMargin: 50,\n                width: 150,\n                height: 65,\n                boxMargin: 10,\n                boxTextMargin: 5,\n                noteMargin: 10,\n                messageMargin: 35\n            \x7d,\n            pie: \x7b\n                textPosition: 0.75\n            \x7d\n        \x7d);\n        \n        // Process any existing mermaid diagrams\n        mermaid.run();\n        \n        // Style mermaid containers\n        document.addEventListener(\x27DOMContentLoaded\x27, function() \x7b\n            const mermaidElements = document.querySelectorAll(\x27.mermaid\x27);\n            mermaidElements.forEach(element => \x7b\n                element.style.textAlign = \x27center\x27;\n                element.style.background = \x27#ffffff\x27;\n                element.style.border = \x271px solid #d0d7de\x27;\n                element.style.borderRadius = \x276px\x27;\n                element.style.padding = \x2716px\x27;\n                element.style.margin = \x2716px 0\x27;\n                element.style.boxShadow = \x270 1px 3px rgba(0,0,0,0.1)\x27;\n            \x7d);\n        \x7d);\n    </script>\n</body>\n</html>"

/-- Embedding of `MarkdownHandler.create_html_page` (lines 86-324): the
f-string template is the concatenation of a fixed part, `{title}`, a second
fixed part, `{content}`, and a final fixed part. -/
def create_html_page (content title : List Char) : List Char :=
  tplA.data ++ title ++ tplB.data ++ content ++ tplC.data

/-- Embedding of the Markdown branch of `do_GET` (lines 34-67).  `fs` models
the file system read at the resolved path; `conv` models
`markdown.Markdown(extensions=[...]).convert`, which may raise (`.error`). -/
def handleMarkdown (fs : List Char → ReadResult)
    (conv : List Char → Except (List Char) (List Char)) (path : List Char) : MdResponse :=
  match fs path with
  | .notFound =>
    { status := 404, contentType := none, contentLength := none,
      body := errNotFoundText ++ path }
  | .ioError m =>
    { status := 500, contentType := none, contentLength := none,
      body := errProcessText ++ m }
  | .ok content =>
    match conv (process_mermaid_blocks content) with
    | .error m =>
      { status := 500, contentType := none, contentLength := none,
        body := errProcessText ++ m }
    | .ok htmlContent =>
      let full := create_html_page htmlContent path
      { status := 200, contentType := some "text/html; charset=utf-8".data,
        contentLength := some (encodeUtf8 full).length, body := full }

/-- Routing outcome of `do_GET`: either the Markdown pipeline produced a
response, or the request was delegated to `super().do_GET()` (the generic
static file responder). -/
inductive GetResult where
  | rendered (r : MdResponse)
  | delegated
deriving DecidableEq

/-- Embedding of `MarkdownHandler.do_GET` (lines 16-70). -/
def do_GET (fs : List Char → ReadResult)
    (conv : List Char → Except (List Char) (List Char))
    (unq : List Char → List Char) (raw : List Char) : GetResult :=
  if mdExt.isSuffixOf (resolvePath unq raw) then
    .rendered (handleMarkdown fs conv (resolvePath unq raw))
  else .delegated

/-- One invocation of the rendering pipeline on a successful request:
preprocessing, Markdown conversion (`conv`, here the successful result of the
third-party converter), and page assembly (lines 40-55). -/
def renderPage (conv : List Char → List Char) (input title : List Char) : List Char :=
  create_html_page (conv (process_mermaid_blocks input)) title

/-- A sequence of rendering invocations, one per request; the code shares no
state between requests (a fresh `markdown.Markdown` instance is built per
request, line 43), so each entry depends only on its own input and title. -/
def renderTrace (conv : List Char → List Char)
    (reqs : List (List Char × List Char)) : List (List Char) :=
  reqs.map (fun r => renderPage conv r.1 r.2)

/-- The file name whose existence `main` checks at startup (line 330). -/
def defaultCheckFile : List Char := "IMPLEMENTATION.md".data

/-- Embedding of `os.path.exists('IMPLEMENTATION.md')` over the working
directory's listing. -/
def startupCheckPasses (files : List (List Char)) : Bool :=
  files.contains defaultCheckFile

/-- What happened at or after the bind in `main`'s `try` block: the
`TCPServer` constructor raised `OSError` (bind failure, with `str(e)`), or
the serve loop was stopped by `KeyboardInterrupt`. -/
inductive ServeOutcome where
  | interrupted
  | bindError (msg : List Char)

/-- Observable process-level event: a printed line or process exit. -/
inductive MainEvent where
  | printed (line : List Char)
  | exited (code : Nat)
deriving DecidableEq

/-- Lines printed when the startup existence check fails (lines 331-334),
followed by `sys.exit(1)`. -/
def startupFailEvents (cwd filesRepr : List Char) : List MainEvent :=
  [.printed "‚ùå Error: IMPLEMENTATION.md not found in current directory".data,
   .printed ("üìÇ Current directory:".data ++ " ".data ++ cwd),
   .printed ("üìÑ Available files:".data ++ " ".data ++ filesRepr),
   .exited 1]

/-- The startup banner printed once the socket is bound (lines 338-345).
The non-ASCII escapes reproduce the source file's characters exactly. -/
def bannerEvents (cwd : List Char) : List MainEvent :=
  [.printed "üöÄ Starting Enhanced Markdown Server...".data,
   .printed "üìñ Serving documentation at: http://localhost:8000".data,
   .printed ("üìÇ Current directory: ".data ++ cwd),
   .printed "üìÑ Available at:".data,
   .printed "   ‚Ä¢ Implementation Guide: http://localhost:8000/".data,
   .printed "   ‚Ä¢ Project README: http://localhost:8000/README.md".data,
   .printed "üõë Press Ctrl+C to stop the server".data,
   .printed (List.replicate 60 '-')]

/-- Embedding of `main` (lines 326-353): the startup existence check, then
either the banner and a clean interrupt, or the caught `OSError` diagnostics.
Both `except` branches fall off the end of `main`, so the process exits 0. -/
def mainRun (files : List (List Char)) (cwd filesRepr : List Char)
    (outcome : ServeOutcome) : List MainEvent :=
  if startupCheckPasses files then
    match outcome with
    | .interrupted =>
      bannerEvents cwd ++ [.printed "\n\uf8ff\u00fc\u00f5\u00eb Server stopped by user".data, .exited 0]
    | .bindError msg =>
      [.printed ("\u201a\u00f9\u00e5 Error starting server: ".data ++ msg)] ++
      (if hasSub "Address already in use".data msg then
        [.printed "\uf8ff\u00fc\u00ed\u00b0 Port 8000 is already in use. Try a different port or stop the existing server.".data]
      else []) ++
      [.exited 0]
  else startupFailEvents cwd filesRepr

/-- The exit status of `main` as a function of the startup check and the
serve outcome. -/
def mainExitCode (files : List (List Char)) (outcome : ServeOutcome) : Nat :=
  if startupCheckPasses files then
    match outcome with
    | .interrupted => 0
    | .bindError _ => 0
  else 1

/-- Substring containment: `pat` occurs contiguously inside `hay`. -/
def containsL (hay pat : List Char) : Prop := ∃ a b, hay = a ++ pat ++ b


/-- Soundness of `splitFirst`: a successful split decomposes the input. -/
theorem splitFirst_sound {pat : List Char} :
    ∀ {s pre post : List Char}, splitFirst pat s = some (pre, post) →
      s = pre ++ pat ++ post := by
  intro s
  induction s with
  | nil =>
    intro pre post h
    simp only [splitFirst] at h
    split at h
    · rename_i hp
      subst hp
      simp only [Option.some.injEq, Prod.mk.injEq] at h
      simp [← h.1, ← h.2]
    · exact absurd h (by simp)
  | cons c cs ih =>
    intro pre post h
    simp only [splitFirst] at h
    split at h
    · rename_i hp
      simp only [Option.some.injEq, Prod.mk.injEq] at h
      obtain ⟨h1, h2⟩ := h
      subst h1
      subst h2
      obtain ⟨t, ht⟩ := List.isPrefixOf_iff_prefix.mp hp
      rw [List.nil_append, ← ht, List.drop_left]
    · cases hcs : splitFirst pat cs with
      | none => rw [hcs] at h; exact absurd h (by simp)
      | some pq =>
        obtain ⟨p, q⟩ := pq
        rw [hcs] at h
        simp only [Option.some.injEq, Prod.mk.injEq] at h
        obtain ⟨h1, h2⟩ := h
        subst h1
        subst h2
        simpa using ih hcs

/-- Length bookkeeping for a successful split. -/
theorem splitFirst_length {pat s pre post : List Char}
    (h : splitFirst pat s = some (pre, post)) :
    s.length = pre.length + pat.length + post.length := by
  rw [splitFirst_sound h]
  simp only [List.length_append]

/-- The fuel of `processMermaidAux` is irrelevant once it exceeds the input
length. -/
theorem processMermaidAux_irrel :
    ∀ (f₁ f₂ : Nat) (s : List Char), s.length < f₁ → s.length < f₂ →
      processMermaidAux f₁ s = processMermaidAux f₂ s := by
  intro f₁
  induction f₁ with
  | zero => intro f₂ s h₁; exact absurd h₁ (by omega)
  | succ n ih =>
    intro f₂ s h₁ h₂
    cases f₂ with
    | zero => exact absurd h₂ (by omega)
    | succ m =>
      cases hop : splitFirst mermaidOpen s with
      | none => simp only [processMermaidAux, hop]
      | some pr =>
        obtain ⟨pre, rest⟩ := pr
        cases hcl : splitFirst mermaidClose rest with
        | none => simp only [processMermaidAux, hop, hcl]
        | some cr =>
          obtain ⟨code, rest2⟩ := cr
          simp only [processMermaidAux, hop, hcl]
          have l₁ := splitFirst_length hop
          have l₂ := splitFirst_length hcl
          have hopen : mermaidOpen.length = 11 := by decide
          have hclose : mermaidClose.length = 4 := by decide
          rw [ih m rest2 (by omega) (by omega)]

/-- When the opening fence literal does not occur, `process_mermaid_blocks`
returns its input unchanged. -/
theorem process_mermaid_no_open {s : List Char}
    (hop : splitFirst mermaidOpen s = none) : process_mermaid_blocks s = s := by
  unfold process_mermaid_blocks
  simp only [processMermaidAux, hop]

/-- When an opening fence occurs but no closing fence follows it (an
unterminated fence), the regex has no match anywhere and the input passes
through as literal text. -/
theorem process_mermaid_unterminated {s pre rest : List Char}
    (hop : splitFirst mermaidOpen s = some (pre, rest))
    (hcl : splitFirst mermaidClose rest = none) :
    process_mermaid_blocks s = s := by
  unfold process_mermaid_blocks
  simp only [processMermaidAux, hop, hcl]

/-- One match-and-replace step of `process_mermaid_blocks`. -/
theorem process_mermaid_step {s pre rest code rest2 : List Char}
    (hop : splitFirst mermaidOpen s = some (pre, rest))
    (hcl : splitFirst mermaidClose rest = some (code, rest2)) :
    process_mermaid_blocks s =
      pre ++ mermaidDivOpen ++ code ++ mermaidDivClose ++
        process_mermaid_blocks rest2 := by
  have l₁ := splitFirst_length hop
  have l₂ := splitFirst_length hcl
  have hopen : mermaidOpen.length = 11 := by decide
  have hclose : mermaidClose.length = 4 := by decide
  calc process_mermaid_blocks s
      = processMermaidAux (s.length + 1) s := rfl
    _ = pre ++ mermaidDivOpen ++ code ++ mermaidDivClose ++
          processMermaidAux s.length rest2 := by
        simp only [processMermaidAux, hop, hcl]
    _ = pre ++ mermaidDivOpen ++ code ++ mermaidDivClose ++
          processMermaidAux (rest2.length + 1) rest2 := by
        rw [processMermaidAux_irrel s.length (rest2.length + 1) rest2 (by omega) (by omega)]
    _ = pre ++ mermaidDivOpen ++ code ++ mermaidDivClose ++
          process_mermaid_blocks rest2 := rfl

/-- A list starts with the separator character exactly when it has the form
`'/' :: t`. -/
theorem slash_isPrefixOf_iff (l : List Char) :
    ("/".data.isPrefixOf l) = true ↔ ∃ t, l = '/' :: t := by
  cases l with
  | nil => simp [List.isPrefixOf]
  | cons b bs =>
    show (List.isPrefixOf ['/'] (b :: bs)) = true ↔ _
    rw [List.isPrefixOf_cons₂]
    simp only [List.isPrefixOf_nil_left, Bool.and_true, beq_iff_eq]
    constructor
    · intro h
      exact ⟨bs, by rw [← h]⟩
    · rintro ⟨t, ht⟩
      injection ht with h1 h2
      rw [h1]

/-- C1: a GET request is routed on the resolved path's `.md` suffix
(case-sensitively): without the suffix it is delegated to the generic static
file responder and the renderer is never invoked; with it, it is routed to
the renderer pipeline on the resolved path. -/
theorem claim_C1_routing (fs : List Char → ReadResult)
    (conv : List Char → Except (List Char) (List Char))
    (unq : List Char → List Char) (raw : List Char) :
    (mdExt.isSuffixOf (resolvePath unq raw) = false →
      do_GET fs conv unq raw = GetResult.delegated) ∧
    (mdExt.isSuffixOf (resolvePath unq raw) = true →
      do_GET fs conv unq raw =
        GetResult.rendered (handleMarkdown fs conv (resolvePath unq raw))) := by
  unfold do_GET
  constructor
  · intro h
    simp [h]
  · intro h
    simp [h]

/-- Witness for C1: `/style.css` and a path with the uppercase extension
`.MD` are delegated to static serving; `/README.md` reaches the renderer. -/
theorem claim_C1_routing_witness :
    (mdExt.isSuffixOf (resolvePath (fun s => s) "/style.css".data) = false ∧
      do_GET (fun _ => ReadResult.notFound) (fun s => Except.ok s)
        (fun s => s) "/style.css".data = GetResult.delegated) ∧
    (mdExt.isSuffixOf (resolvePath (fun s => s) "/NOTES.MD".data) = false ∧
      do_GET (fun _ => ReadResult.notFound) (fun s => Except.ok s)
        (fun s => s) "/NOTES.MD".data = GetResult.delegated) ∧
    (mdExt.isSuffixOf (resolvePath (fun s => s) "/README.md".data) = true ∧
      do_GET (fun _ => ReadResult.notFound) (fun s => Except.ok s)
        (fun s => s) "/README.md".data =
        GetResult.rendered (handleMarkdown (fun _ => ReadResult.notFound)
          (fun s => Except.ok s) (resolvePath (fun s => s) "/README.md".data))) :=
  ⟨⟨by decide, (claim_C1_routing _ _ _ _).1 (by decide)⟩,
   ⟨by decide, (claim_C1_routing _ _ _ _).1 (by decide)⟩,
   ⟨by decide, (claim_C1_routing _ _ _ _).2 (by decide)⟩⟩

/-- C2: the preprocessing step replaces each well-formed diagram-fenced block
(opening literal, lazily matched content, closing literal) by exactly one
`<div class="mermaid">` element whose inner text is the fence's content
verbatim; inputs whose first opening fence is unterminated, or that contain
no opening fence, pass through unchanged; and the spec's example input is
rewritten to exactly the spec's example output. -/
theorem claim_C2_mermaid (s : List Char) :
    (∀ pre rest code rest2,
      splitFirst mermaidOpen s = some (pre, rest) →
      splitFirst mermaidClose rest = some (code, rest2) →
      s = pre ++ mermaidOpen ++ code ++ mermaidClose ++ rest2 ∧
      process_mermaid_blocks s =
        pre ++ mermaidDivOpen ++ code ++ mermaidDivClose ++
          process_mermaid_blocks rest2) ∧
    (∀ pre rest,
      splitFirst mermaidOpen s = some (pre, rest) →
      splitFirst mermaidClose rest = none →
      process_mermaid_blocks s = s) ∧
    (splitFirst mermaidOpen s = none → process_mermaid_blocks s = s) ∧
    process_mermaid_blocks "```mermaid\ngraph TD; A-->B;\n```".data =
      "<div class=\"mermaid\">\ngraph TD; A-->B;\n</div>".data := by
  refine ⟨?_, ?_, ?_, ?_⟩
  · intro pre rest code rest2 hop hcl
    refine ⟨?_, process_mermaid_step hop hcl⟩
    have h1 := splitFirst_sound hop
    have h2 := splitFirst_sound hcl
    rw [h1, h2]
    simp [List.append_assoc]
  · intro pre rest hop hcl
    exact process_mermaid_unterminated hop hcl
  · intro hop
    exact process_mermaid_no_open hop
  · decide

/-- Witness for C2: a concrete document with one well-formed block is
decomposed and rewritten to a single diagram div with verbatim content, and a
concrete unterminated fence passes through unchanged. -/
theorem claim_C2_mermaid_witness :
    ("a\n```mermaid\nX Y\n```z".data =
        "a\n".data ++ mermaidOpen ++ "X Y".data ++ mermaidClose ++ "z".data ∧
      process_mermaid_blocks "a\n```mermaid\nX Y\n```z".data =
        "a\n".data ++ mermaidDivOpen ++ "X Y".data ++ mermaidDivClose ++
          process_mermaid_blocks "z".data) ∧
    process_mermaid_blocks "```mermaid\nno closing fence".data =
      "```mermaid\nno closing fence".data :=
  ⟨(claim_C2_mermaid _).1 "a\n".data "X Y\n```z".data "X Y".data "z".data
      (by decide) (by decide),
   (claim_C2_mermaid _).2.1 [] "no closing fence".data (by decide) (by decide)⟩

/-- C3 as stated is false: the code strips exactly one leading separator, so
a raw path beginning with two separators resolves to a path that still begins
with a separator (here `//secret.md` resolves to `/secret.md`). -/
theorem claim_C3_counterexample :
    "/".data.isPrefixOf (resolvePath (fun s => s) "//secret.md".data) = true ∧
    resolvePath (fun s => s) "//secret.md".data = "/secret.md".data := by
  decide

/-- C3 amended: the resolved path has no leading separator whenever the
decoded, query-stripped, root-substituted path does not begin with two
separators; in general only the first separator is removed. -/
theorem claim_C3_amended (unq : List Char → List Char) (raw : List Char)
    (h : "//".data.isPrefixOf (rootSubst (stripQuery (unq raw))) = false) :
    "/".data.isPrefixOf (resolvePath unq raw) = false := by
  unfold resolvePath stripLeadingSlash
  cases hp : ("/".data.isPrefixOf (rootSubst (stripQuery (unq raw)))) with
  | false =>
    simp only [hp, Bool.false_eq_true, if_false]
  | true =>
    obtain ⟨t, ht⟩ := (slash_isPrefixOf_iff _).mp hp
    simp only [hp, if_true]
    rw [ht]
    simp only [List.drop_succ_cons, List.drop_zero]
    cases hpt : ("/".data.isPrefixOf t) with
    | false => rfl
    | true =>
      obtain ⟨u, hu⟩ := (slash_isPrefixOf_iff _).mp hpt
      rw [ht, hu] at h
      simp [List.isPrefixOf_cons₂, List.isPrefixOf_nil_left] at h

/-- Witness for C3 amended: an ordinary single-separator request resolves to
a separator-free relative path. -/
theorem claim_C3_amended_witness :
    "//".data.isPrefixOf
        (rootSubst (stripQuery ((fun s => s) "/README.md".data))) = false ∧
    "/".data.isPrefixOf (resolvePath (fun s => s) "/README.md".data) = false :=
  ⟨by decide, claim_C3_amended (fun s => s) "/README.md".data (by decide)⟩

/-- C6: whenever the decoded, query-stripped path is exactly the root `/`,
the Router substitutes the fixed default document name before anything else,
so the request resolves to `IMPLEMENTATION_GUIDE.md` and is handled exactly
as a direct request for `/IMPLEMENTATION_GUIDE.md` under every file system
and converter (in particular, before any file-existence check). -/
theorem claim_C6_root (fs : List Char → ReadResult)
    (conv : List Char → Except (List Char) (List Char))
    (unq : List Char → List Char) (raw : List Char)
    (h : stripQuery (unq raw) = "/".data) :
    resolvePath unq raw = "IMPLEMENTATION_GUIDE.md".data ∧
    do_GET fs conv unq raw =
      do_GET fs conv (fun s => s) "/IMPLEMENTATION_GUIDE.md".data := by
  have hres : resolvePath unq raw = "IMPLEMENTATION_GUIDE.md".data := by
    unfold resolvePath
    rw [h]
    decide
  refine ⟨hres, ?_⟩
  unfold do_GET
  rw [hres, show resolvePath (fun s => s) "/IMPLEMENTATION_GUIDE.md".data =
    "IMPLEMENTATION_GUIDE.md".data from by decide]

/-- Witness for C6: a root request carrying a query string resolves to the
default document and is handled like a direct request for it. -/
theorem claim_C6_root_witness :
    stripQuery ((fun s => s) "/?tab=readme".data) = "/".data ∧
    resolvePath (fun s => s) "/?tab=readme".data =
      "IMPLEMENTATION_GUIDE.md".data ∧
    do_GET (fun _ => ReadResult.notFound) (fun s => Except.ok s)
        (fun s => s) "/?tab=readme".data =
      do_GET (fun _ => ReadResult.notFound) (fun s => Except.ok s)
        (fun s => s) "/IMPLEMENTATION_GUIDE.md".data :=
  ⟨by decide,
   (claim_C6_root (fun _ => ReadResult.notFound) (fun s => Except.ok s)
     (fun s => s) "/?tab=readme".data (by decide)).1,
   (claim_C6_root (fun _ => ReadResult.notFound) (fun s => Except.ok s)
     (fun s => s) "/?tab=readme".data (by decide)).2⟩

/-- C4: on a Markdown path, a missing file yields a 404 response whose body
contains the requested path; a read failure or a converter failure yields a
500 response whose body is non-empty and contains exactly the fixed short
text plus the error's description (never anything else, such as a stack
trace). -/
theorem claim_C4_errors (fs : List Char → ReadResult)
    (conv : List Char → Except (List Char) (List Char)) (path : List Char) :
    (fs path = ReadResult.notFound →
      (handleMarkdown fs conv path).status = 404 ∧
      (handleMarkdown fs conv path).body = errNotFoundText ++ path ∧
      containsL (handleMarkdown fs conv path).body path) ∧
    (∀ m, fs path = ReadResult.ioError m →
      (handleMarkdown fs conv path).status = 500 ∧
      (handleMarkdown fs conv path).body = errProcessText ++ m ∧
      containsL (handleMarkdown fs conv path).body m ∧
      (handleMarkdown fs conv path).body ≠ []) ∧
    (∀ c m, fs path = ReadResult.ok c →
      conv (process_mermaid_blocks c) = Except.error m →
      (handleMarkdown fs conv path).status = 500 ∧
      (handleMarkdown fs conv path).body = errProcessText ++ m ∧
      containsL (handleMarkdown fs conv path).body m ∧
      (handleMarkdown fs conv path).body ≠ []) := by
  refine ⟨?_, ?_, ?_⟩
  · intro h
    unfold handleMarkdown
    rw [h]
    refine ⟨rfl, rfl, errNotFoundText, [], ?_⟩
    show errNotFoundText ++ path = errNotFoundText ++ path ++ []
    simp
  · intro m h
    unfold handleMarkdown
    rw [h]
    refine ⟨rfl, rfl, ⟨errProcessText, [], ?_⟩, ?_⟩
    · show errProcessText ++ m = errProcessText ++ m ++ []
      simp
    · show errProcessText ++ m ≠ []
      simp [errProcessText]
  · intro c m hc hm
    simp only [handleMarkdown, hc, hm]
    refine ⟨trivial, trivial, ⟨errProcessText, [], ?_⟩, ?_⟩
    · show errProcessText ++ m = errProcessText ++ m ++ []
      simp
    · show errProcessText ++ m ≠ []
      simp [errProcessText]

/-- Witness for C4: a concrete missing file gives a 404 naming the path, and
a concrete read failure gives a 500 carrying the error description. -/
theorem claim_C4_errors_witness :
    ((handleMarkdown (fun _ => ReadResult.notFound) (fun s => Except.ok s)
        "missing.md".data).status = 404 ∧
      (handleMarkdown (fun _ => ReadResult.notFound) (fun s => Except.ok s)
        "missing.md".data).body = errNotFoundText ++ "missing.md".data ∧
      containsL (handleMarkdown (fun _ => ReadResult.notFound)
        (fun s => Except.ok s) "missing.md".data).body "missing.md".data) ∧
    ((handleMarkdown (fun _ => ReadResult.ioError "Permission denied".data)
        (fun s => Except.ok s) "locked.md".data).status = 500 ∧
      (handleMarkdown (fun _ => ReadResult.ioError "Permission denied".data)
        (fun s => Except.ok s) "locked.md".data).body =
        errProcessText ++ "Permission denied".data ∧
      containsL (handleMarkdown (fun _ => ReadResult.ioError "Permission denied".data)
        (fun s => Except.ok s) "locked.md".data).body "Permission denied".data ∧
      (handleMarkdown (fun _ => ReadResult.ioError "Permission denied".data)
        (fun s => Except.ok s) "locked.md".data).body ≠ []) :=
  ⟨(claim_C4_errors (fun _ => ReadResult.notFound) (fun s => Except.ok s)
      "missing.md".data).1 rfl,
   (claim_C4_errors (fun _ => ReadResult.ioError "Permission denied".data)
      (fun s => Except.ok s) "locked.md".data).2.1 "Permission denied".data rfl⟩

/-- C5: every 200 response of the Markdown pipeline carries the header
`Content-Type: text/html; charset=utf-8` and a `Content-Length` equal to the
byte length of the UTF-8 encoding of the body that is written. -/
theorem claim_C5_headers (fs : List Char → ReadResult)
    (conv : List Char → Except (List Char) (List Char)) (path : List Char)
    (h : (handleMarkdown fs conv path).status = 200) :
    (handleMarkdown fs conv path).contentType =
      some "text/html; charset=utf-8".data ∧
    (handleMarkdown fs conv path).contentLength =
      some (encodeUtf8 (handleMarkdown fs conv path).body).length := by
  cases hfs : fs path with
  | notFound =>
    exfalso
    have h4 : (handleMarkdown fs conv path).status = 404 := by
      unfold handleMarkdown
      rw [hfs]
    omega
  | ioError m =>
    exfalso
    have h5 : (handleMarkdown fs conv path).status = 500 := by
      unfold handleMarkdown
      rw [hfs]
    omega
  | ok c =>
    cases hcv : conv (process_mermaid_blocks c) with
    | error m =>
      exfalso
      have h5 : (handleMarkdown fs conv path).status = 500 := by
        simp only [handleMarkdown, hfs, hcv]
      omega
    | ok htmlContent =>
      constructor
      · simp only [handleMarkdown, hfs, hcv]
      · simp only [handleMarkdown, hfs, hcv]

/-- Witness for C5: a concrete successful render has status 200, the UTF-8
HTML content type, and a `Content-Length` matching its encoded body. -/
theorem claim_C5_headers_witness :
    (handleMarkdown (fun _ => ReadResult.ok "# hi".data) (fun s => Except.ok s)
      "doc.md".data).status = 200 ∧
    (handleMarkdown (fun _ => ReadResult.ok "# hi".data) (fun s => Except.ok s)
      "doc.md".data).contentType = some "text/html; charset=utf-8".data ∧
    (handleMarkdown (fun _ => ReadResult.ok "# hi".data) (fun s => Except.ok s)
      "doc.md".data).contentLength =
      some (encodeUtf8 (handleMarkdown (fun _ => ReadResult.ok "# hi".data)
        (fun s => Except.ok s) "doc.md".data).body).length :=
  ⟨rfl,
   (claim_C5_headers (fun _ => ReadResult.ok "# hi".data) (fun s => Except.ok s)
     "doc.md".data rfl).1,
   (claim_C5_headers (fun _ => ReadResult.ok "# hi".data) (fun s => Except.ok s)
     "doc.md".data rfl).2⟩

/-- C9: for a document without diagram blocks (the preprocessing is the
identity on it), any two invocations of the rendering pipeline on the same
input and title produce the identical output string, regardless of which
other requests are served before, between, or after them: no randomness or
state shared across requests influences the result. -/
theorem claim_C9_determinism (conv : List Char → List Char)
    (input title : List Char) (hnd : process_mermaid_blocks input = input)
    (pre mid post : List (List Char × List Char)) :
    renderTrace conv (pre ++ (input, title) :: mid ++ (input, title) :: post) =
      renderTrace conv pre ++
        create_html_page (conv input) title ::
          (renderTrace conv mid ++
            create_html_page (conv input) title :: renderTrace conv post) := by
  simp [renderTrace, renderPage, hnd]

/-- Witness for C9: rendering `# hello` twice in one trace yields the same
page both times. -/
theorem claim_C9_determinism_witness :
    process_mermaid_blocks "# hello".data = "# hello".data ∧
    renderTrace (fun s => s)
        ([] ++ ("# hello".data, "doc.md".data) ::
          ([] ++ ("# hello".data, "doc.md".data) :: [])) =
      renderTrace (fun s => s) [] ++
        create_html_page "# hello".data "doc.md".data ::
          (renderTrace (fun s => s) [] ++
            create_html_page "# hello".data "doc.md".data ::
              renderTrace (fun s => s) []) :=
  ⟨by decide,
   claim_C9_determinism (fun s => s) "# hello".data "doc.md".data (by decide)
     [] [] []⟩

/-- C10: the page template inserts the resolved path (the title argument)
verbatim — with no HTML escaping — between `<title>` and `</title>`: the
assembled page decomposes as a fixed head ending right before `<title>`, the
literal `<title>`, the title string unchanged, the literal `</title>`, the
rest of the fixed template around the content.  Any markup characters in the
title therefore appear unescaped in the page source. -/
theorem claim_C10_title (content title : List Char) :
    create_html_page content title =
      tplA.data.take 146 ++
        ("<title>".data ++ title ++ "</title>".data) ++
        tplB.data.drop 8 ++ content ++ tplC.data := by
  have hA : tplA.data.drop 146 = "<title>".data := rfl
  have hB : tplB.data.take 8 = "</title>".data := rfl
  unfold create_html_page
  conv_lhs =>
    rw [← List.take_append_drop 146 tplA.data, ← List.take_append_drop 8 tplB.data]
  rw [hA, hB]
  simp [List.append_assoc]

/-- C7: the code contradicts itself here.  The startup check of `main` (line
330) tests for `IMPLEMENTATION.md`, while the root path `/` resolves to
`IMPLEMENTATION_GUIDE.md` (line 26): the two names differ, so in a working
directory that contains the root default document (and not the other name)
the startup check still fails, prints the diagnostics, and exits 1. -/
theorem claim_C7_startup_mismatch :
    defaultCheckFile = "IMPLEMENTATION.md".data ∧
    resolvePath (fun s => s) "/".data = "IMPLEMENTATION_GUIDE.md".data ∧
    defaultCheckFile ≠ resolvePath (fun s => s) "/".data ∧
    startupCheckPasses ["IMPLEMENTATION_GUIDE.md".data] = false ∧
    mainRun ["IMPLEMENTATION_GUIDE.md".data] "/srv/docs".data "listing".data
        ServeOutcome.interrupted =
      startupFailEvents "/srv/docs".data "listing".data ∧
    MainEvent.exited 1 ∈
      mainRun ["IMPLEMENTATION_GUIDE.md".data] "/srv/docs".data "listing".data
        ServeOutcome.interrupted := by
  refine ⟨rfl, by decide, by decide, by decide, ?_, by decide⟩
  unfold mainRun
  rw [show startupCheckPasses ["IMPLEMENTATION_GUIDE.md".data] = false from by decide]
  simp

/-- C8 as stated is false: on a bind failure (`OSError`, here the message of
a port conflict) the exception is caught, diagnostics are printed, and
`main` returns normally, so the process terminates with exit status 0 — not
a non-zero status. -/
theorem claim_C8_counterexample :
    mainExitCode ["IMPLEMENTATION.md".data]
      (ServeOutcome.bindError "[Errno 98] Address already in use".data) = 0 ∧
    MainEvent.exited 0 ∈
      mainRun ["IMPLEMENTATION.md".data] "/srv".data "listing".data
        (ServeOutcome.bindError "[Errno 98] Address already in use".data) := by
  decide

/-- C8 amended: on a bind failure the process prints a diagnostic naming the
cause, but then terminates with exit status 0 — the same status as a clean
interrupt — because both except branches of `main` fall through to a normal
return. -/
theorem claim_C8_amended (files : List (List Char))
    (cwd filesRepr msg : List Char) (h : startupCheckPasses files = true) :
    MainEvent.printed ("‚ùå Error starting server: ".data ++ msg) ∈
      mainRun files cwd filesRepr (ServeOutcome.bindError msg) ∧
    (mainRun files cwd filesRepr (ServeOutcome.bindError msg)).getLast? =
      some (MainEvent.exited 0) ∧
    mainExitCode files (ServeOutcome.bindError msg) = 0 ∧
    (mainRun files cwd filesRepr ServeOutcome.interrupted).getLast? =
      some (MainEvent.exited 0) ∧
    mainExitCode files ServeOutcome.interrupted = 0 := by
  have hrun : mainRun files cwd filesRepr (ServeOutcome.bindError msg) =
      [MainEvent.printed ("‚ùå Error starting server: ".data ++ msg)] ++
      (if hasSub "Address already in use".data msg then
        [MainEvent.printed "üí° Port 8000 is already in use. Try a different port or stop the existing server.".data]
      else []) ++
      [MainEvent.exited 0] := by
    unfold mainRun
    simp only [h, if_true]
  refine ⟨?_, ?_, ?_, ?_, ?_⟩
  · rw [hrun]
    simp
  · rw [hrun]
    cases hsub : hasSub "Address already in use".data msg with
    | false => simp [hsub]
    | true => simp [hsub]
  · unfold mainExitCode
    simp only [h, if_true]
  · unfold mainRun bannerEvents
    simp only [h, if_true]
    rfl
  · unfold mainExitCode
    simp only [h, if_true]

/-- Witness for C8 amended: with the checked file present and a concrete
port-conflict message, the diagnostic is printed and both termination paths
exit 0. -/
theorem claim_C8_amended_witness :
    startupCheckPasses ["IMPLEMENTATION.md".data] = true ∧
    (MainEvent.printed ("‚ùå Error starting server: ".data ++
        "[Errno 48] Address already in use".data) ∈
      mainRun ["IMPLEMENTATION.md".data] "/srv".data "[]".data
        (ServeOutcome.bindError "[Errno 48] Address already in use".data) ∧
    (mainRun ["IMPLEMENTATION.md".data] "/srv".data "[]".data
        (ServeOutcome.bindError "[Errno 48] Address already in use".data)).getLast? =
      some (MainEvent.exited 0) ∧
    mainExitCode ["IMPLEMENTATION.md".data]
      (ServeOutcome.bindError "[Errno 48] Address already in use".data) = 0 ∧
    (mainRun ["IMPLEMENTATION.md".data] "/srv".data "[]".data
        ServeOutcome.interrupted).getLast? = some (MainEvent.exited 0) ∧
    mainExitCode ["IMPLEMENTATION.md".data] ServeOutcome.interrupted = 0) :=
  ⟨by decide,
   claim_C8_amended ["IMPLEMENTATION.md".data] "/srv".data "[]".data
     "[Errno 48] Address already in use".data (by decide)⟩
